import Mathlib

/-!
Verification of the movie-review backend (flat-file variant `backend/main.py`
and relational variant `backend/main_sqlite.py`) against its specification.

Modelling conventions:
* Python `int` is `Int`; the classifier confidence (a `number (0..1)`) is `ℚ`.
* The `%Y-%m-%d %H:%M:%S` creation timestamp is wall-clock time at second
  resolution; it is modelled as the second count `Nat` (the formatting is a
  strictly monotone injection from seconds, so ordering facts transfer).
* The sentiment classifier is an opaque parameter `String → Option Prediction`;
  `none` models the classifier call raising (ClassificationError).
* A handler that raises `HTTPException` (or lets an exception propagate) leaves
  the module-level stores untouched, so each handler returns the (possibly
  unchanged) state paired with an `Except` outcome.
-/

namespace MovieReview

/-- Pydantic `MovieCreate` (main.py lines 59-64). -/
structure MovieCreate where
  title : String
  director : String
  genre : String
  release_date : String
  poster_url : String
deriving DecidableEq, Repr

/-- A stored movie record: the `MovieCreate` fields plus the assigned `id`
(main.py line 90-91). -/
structure Movie where
  id : Int
  title : String
  director : String
  genre : String
  release_date : String
  poster_url : String
deriving DecidableEq, Repr

/-- Pydantic `ReviewCreate` (main.py lines 67-69). -/
structure ReviewCreate where
  movie_id : Int
  content : String
deriving DecidableEq, Repr

/-- A stored review record as built in `create_review` (main.py lines 137-144). -/
structure Review where
  movie_id : Int
  movie_title : String
  content : String
  sentiment : String
  sentiment_score : ℚ
  created_at : Nat
deriving DecidableEq, Repr

/-- Output of one classifier call: `classifier(text)[0]` has a `label` and a
`score` (main.py line 132). -/
structure Prediction where
  label : String
  score : ℚ
deriving DecidableEq, Repr

/-- The error surface of the handlers: `HTTPException(404, detail)` and a
propagated classifier exception. -/
inductive ApiError where
  | notFound (detail : String)
  | classificationError
deriving DecidableEq, Repr

/-- The module-level mutable state of `main.py`: the `movies` list, the
`reviews` list and `movie_id_counter` (lines 41-45). -/
structure FState where
  movies : List Movie
  reviews : List Review
  movie_id_counter : Int
deriving DecidableEq, Repr

/-- The label mapping of main.py line 135 and main_sqlite.py line 177:
`"POSITIVE" if prediction['label'] == 'LABEL_1' else "NEGATIVE"`. -/
def sentimentLabel (raw : String) : String :=
  if raw = "LABEL_1" then "POSITIVE" else "NEGATIVE"

/-- Round half to even (Python's `round` tie rule) of a rational to an
integer. -/
def roundHalfEven (x : ℚ) : ℤ :=
  if Int.fract x < 1/2 then ⌊x⌋
  else if 1/2 < Int.fract x then ⌈x⌉
  else if Even ⌊x⌋ then ⌊x⌋ else ⌈x⌉

/-- Python's `round(q, 4)` on the classifier score (main.py line 142). -/
def round4 (q : ℚ) : ℚ :=
  (roundHalfEven (q * 10000) : ℚ) / 10000

/-- `POST /movies/` (main.py lines 87-98): assign `movie_id_counter` as the new
id, append, increment the counter, return the new record. -/
def create_movie (s : FState) (movie : MovieCreate) : FState × Movie :=
  let new_movie : Movie :=
    ⟨s.movie_id_counter, movie.title, movie.director, movie.genre,
     movie.release_date, movie.poster_url⟩
  (⟨s.movies ++ [new_movie], s.reviews, s.movie_id_counter + 1⟩, new_movie)

/-- `DELETE /movies/{movie_id}` (main.py lines 104-120): 404 if no movie has
the id, otherwise drop the movie and every review whose `movie_id` equals it. -/
def delete_movie (s : FState) (movie_id : Int) : FState × Except ApiError String :=
  if s.movies.any (fun m => m.id == movie_id) then
    (⟨s.movies.filter (fun m => m.id != movie_id),
      s.reviews.filter (fun r => r.movie_id != movie_id),
      s.movie_id_counter⟩,
     Except.ok ("Movie " ++ toString movie_id ++ " and its reviews have been deleted."))
  else
    (s, Except.error (ApiError.notFound "Movie not found"))

/-- `POST /reviews/` (main.py lines 124-150): look the movie up, 404 if absent,
call the classifier, build the review record, append it and return it. -/
def create_review (classify : String → Option Prediction) (now : Nat)
    (s : FState) (review : ReviewCreate) : FState × Except ApiError Review :=
  match s.movies.find? (fun m => m.id == review.movie_id) with
  | none => (s, Except.error (ApiError.notFound "Movie not found"))
  | some movie =>
    match classify review.content with
    | none => (s, Except.error ApiError.classificationError)
    | some prediction =>
      let new_review : Review :=
        ⟨review.movie_id, movie.title, review.content,
         sentimentLabel prediction.label, round4 prediction.score, now⟩
      (⟨s.movies, s.reviews ++ [new_review], s.movie_id_counter⟩,
       Except.ok new_review)

/-- `GET /reviews/` (main.py lines 153-165): all reviews newest-first,
optionally filtered by movie id. -/
def get_all_reviews (s : FState) (movie_id : Option Int) : List Review :=
  let sorted_reviews := s.reviews.reverse
  match movie_id with
  | some mid => sorted_reviews.filter (fun r => r.movie_id == mid)
  | none => sorted_reviews

/-- Python slice `l[:stop]` for an `int` stop: a nonnegative stop keeps the
first `stop` elements, a negative stop drops the last `-stop` elements. -/
def pySliceTo {α : Type} (l : List α) (stop : Int) : List α :=
  if 0 ≤ stop then l.take stop.toNat
  else l.take (l.length - (-stop).toNat)

/-- `GET /reviews/recent` (main.py lines 168-171): `reviews[::-1][:limit]`. -/
def get_recent_reviews (s : FState) (limit : Int) : List Review :=
  pySliceTo s.reviews.reverse limit

/-- `GET /reviews/recent` called without a `limit` query parameter: the
declared default is `limit: int = 10` (main.py line 169). -/
def get_recent_reviews_default (s : FState) : List Review :=
  get_recent_reviews s 10

/-- `DELETE /reviews/` (main.py lines 175-180): clear the review store. -/
def delete_all_reviews (s : FState) : FState × String :=
  (⟨s.movies, [], s.movie_id_counter⟩, "All reviews have been deleted.")

/-- Python `list.pop(i)` for an `int` index: a negative index counts from the
end; `IndexError` (here `none`) when the normalised index is out of range. -/
def pyPop {α : Type} (l : List α) (i : Int) : Option (List α) :=
  let j : Int := if i < 0 then i + l.length else i
  if 0 ≤ j ∧ j < (l.length : Int) then some (l.eraseIdx j.toNat) else none

/-- `DELETE /reviews/{index}` (main.py lines 184-194): `reviews.pop(index)`,
404 on `IndexError`. -/
def delete_specific_review (s : FState) (index : Int) : FState × Except ApiError String :=
  match pyPop s.reviews index with
  | some l => (⟨s.movies, l, s.movie_id_counter⟩, Except.ok "Review deleted")
  | none => (s, Except.error (ApiError.notFound "Review index out of range"))

/-- A stored review row of the SQLite variant: the review fields plus the
AUTOINCREMENT primary key (main_sqlite.py lines 52-81). -/
structure SqlReview where
  id : Int
  movie_id : Int
  movie_title : String
  content : String
  sentiment : String
  sentiment_score : ℚ
  created_at : Nat
deriving DecidableEq, Repr

/-- The database state of `main_sqlite.py`: the two tables plus the
AUTOINCREMENT next-key counters. -/
structure SqlState where
  movies : List Movie
  reviews : List SqlReview
  next_movie_id : Int
  next_review_id : Int
deriving DecidableEq, Repr

/-- `DELETE /movies/{movie_id}` of the SQLite variant (main_sqlite.py lines
157-165): two unconditional `DELETE` statements — no existence check, the
handler always responds with the success message. -/
def sq_delete_movie (s : SqlState) (movie_id : Int) : SqlState × String :=
  (⟨s.movies.filter (fun m => m.id != movie_id),
    s.reviews.filter (fun r => r.movie_id != movie_id),
    s.next_movie_id, s.next_review_id⟩,
   "Movie and related reviews deleted")

/-- `POST /reviews/` of the SQLite variant (main_sqlite.py lines 168-187):
look the movie up, 404 if absent, classify, insert the row, and respond with
`{"status": "success"}` (modelled as the payload string `"success"`). -/
def sq_create_review (classify : String → Option Prediction) (now : Nat)
    (s : SqlState) (review : ReviewCreate) : SqlState × Except ApiError String :=
  match s.movies.find? (fun m => m.id == review.movie_id) with
  | none => (s, Except.error (ApiError.notFound "Movie not found"))
  | some movie =>
    match classify review.content with
    | none => (s, Except.error ApiError.classificationError)
    | some prediction =>
      let new_review : SqlReview :=
        ⟨s.next_review_id, review.movie_id, movie.title, review.content,
         sentimentLabel prediction.label, round4 prediction.score, now⟩
      (⟨s.movies, s.reviews ++ [new_review], s.next_movie_id, s.next_review_id + 1⟩,
       Except.ok "success")

/-- One client-visible operation of a flat-file session. -/
inductive Op where
  | createMovie (m : MovieCreate)
  | deleteMovie (id : Int)
  | submitReview (classify : String → Option Prediction) (now : Nat) (req : ReviewCreate)
  | deleteAllReviews
  | deleteReview (index : Int)

/-- The state reached after one operation (the handlers above, keeping only
the resulting store state). -/
def step (s : FState) : Op → FState
  | Op.createMovie m => (create_movie s m).1
  | Op.deleteMovie id => (delete_movie s id).1
  | Op.submitReview cl now req => (create_review cl now s req).1
  | Op.deleteAllReviews => (delete_all_reviews s).1
  | Op.deleteReview i => (delete_specific_review s i).1

/-- Run a whole session from a state. -/
def run (s : FState) : List Op → FState
  | [] => s
  | op :: ops => run (step s op) ops

/-- The ids returned by the `create_movie` calls of a session, in call order. -/
def createdIds (s : FState) : List Op → List Int
  | [] => []
  | Op.createMovie m :: ops =>
      (create_movie s m).2.id :: createdIds (step s (Op.createMovie m)) ops
  | Op.deleteMovie i :: ops => createdIds (step s (Op.deleteMovie i)) ops
  | Op.submitReview cl now req :: ops =>
      createdIds (step s (Op.submitReview cl now req)) ops
  | Op.deleteAllReviews :: ops => createdIds (step s Op.deleteAllReviews) ops
  | Op.deleteReview i :: ops => createdIds (step s (Op.deleteReview i)) ops

/-! ### Concrete sample data (section 8 scenario of the spec) -/

def sampleMovie : Movie :=
  ⟨1, "Inception", "Nolan", "Sci-Fi", "2010-07-16", "http://x/1.jpg"⟩

def sampleReview : Review := ⟨1, "Inception", "Amazing film", "POSITIVE", 9/10, 100⟩

def sampleState : FState := ⟨[sampleMovie], [sampleReview], 2⟩

def emptyState : FState := ⟨[], [], 1⟩

def sampleSqlState : SqlState := ⟨[sampleMovie], [], 2, 1⟩

def emptySqlState : SqlState := ⟨[], [], 1, 1⟩

/-- A SQLite state holding one movie (id 1) and one orphaned review row whose
`movie_id` 999 references no stored movie (such rows arrive e.g. through the
JSON migration of `init_db`, which inserts review rows without checking the
foreign key). -/
def orphanSqlState : SqlState :=
  ⟨[sampleMovie], [⟨1, 999, "Ghost", "meh", "NEGATIVE", 0, 50⟩], 2, 2⟩

/-- A review stamped late (second 200) but inserted first. -/
def lateReview : Review := ⟨1, "Inception", "late", "NEGATIVE", 0, 200⟩

/-- A review stamped early (second 100) but inserted second. -/
def earlyReview : Review := ⟨1, "Inception", "early", "NEGATIVE", 0, 100⟩

/-- A classifier that always answers `LABEL_1` with confidence `9/10`. -/
def goodClassifier : String → Option Prediction := fun _ => some ⟨"LABEL_1", 9/10⟩

/-- A classifier whose call always fails. -/
def badClassifier : String → Option Prediction := fun _ => none

/-! ### Helper lemmas -/

lemma countP_filter_ne_eq_zero {α : Type} (l : List α) (f : α → Int) (v : Int) :
    (l.filter (fun a => f a != v)).countP (fun a => f a == v) = 0 := by
  rw [List.countP_eq_zero]
  intro a ha
  rw [List.mem_filter] at ha
  simpa using ha.2

lemma delete_movie_ok_inv (s s' : FState) (mid : Int) (msg : String)
    (h : delete_movie s mid = (s', Except.ok msg)) :
    s' = ⟨s.movies.filter (fun m => m.id != mid),
          s.reviews.filter (fun r => r.movie_id != mid),
          s.movie_id_counter⟩ := by
  unfold delete_movie at h
  split at h
  · rw [Prod.mk.injEq] at h
    exact h.1.symm
  · simp at h

/-- Claim C1: whenever `delete_movie` succeeds, the movie store holds no movie
with the deleted id and the review store holds zero reviews whose `movie_id`
equals it; the SQLite variant's delete handler establishes the same
postcondition on every state. As the postcondition is proved for every state
and id, it holds in particular after any sequence of prior operations. -/
theorem C1_cascade_delete (s s' : FState) (mid : Int) (msg : String) (t : SqlState)
    (h : delete_movie s mid = (s', Except.ok msg)) :
    s'.movies.countP (fun m => m.id == mid) = 0
    ∧ s'.reviews.countP (fun r => r.movie_id == mid) = 0
    ∧ (sq_delete_movie t mid).1.movies.countP (fun m => m.id == mid) = 0
    ∧ (sq_delete_movie t mid).1.reviews.countP (fun r => r.movie_id == mid) = 0 := by
  obtain rfl := delete_movie_ok_inv s s' mid msg h
  refine ⟨countP_filter_ne_eq_zero _ _ _, countP_filter_ne_eq_zero _ _ _, ?_, ?_⟩
  · exact countP_filter_ne_eq_zero _ _ _
  · exact countP_filter_ne_eq_zero _ _ _

/-- Witness for C1: deleting movie 1 from the sample state (one movie, one
review of it) succeeds and leaves both stores free of id 1. -/
theorem C1_witness :
    (⟨[], [], 2⟩ : FState).movies.countP (fun m => m.id == 1) = 0
    ∧ (⟨[], [], 2⟩ : FState).reviews.countP (fun r => r.movie_id == 1) = 0
    ∧ (sq_delete_movie sampleSqlState 1).1.movies.countP (fun m => m.id == 1) = 0
    ∧ (sq_delete_movie sampleSqlState 1).1.reviews.countP (fun r => r.movie_id == 1) = 0 :=
  C1_cascade_delete sampleState ⟨[], [], 2⟩ 1
    "Movie 1 and its reviews have been deleted." sampleSqlState (by rfl)

/-- Counterexample for C3: the SQLite variant's delete handler, called on an
id that no movie has (empty database, id 999), does not fail with NotFound —
it returns the state unchanged together with its unconditional success
message. -/
theorem C3_counterexample :
    sq_delete_movie emptySqlState 999
      = (emptySqlState, "Movie and related reviews deleted") := by
  rfl

/-- Claim C3 (amended): for the flat-file backend, deleting an absent movie id
fails with NotFound and leaves the state unchanged; the relational backend
performs no existence check — it responds with its unconditional success
message, leaves the movie store unchanged (no movie matches the id), and
still deletes every review row whose `movie_id` equals the id (orphaned
rows included), keeping the rest of the review store intact. -/
theorem C3_delete_absent (s : FState) (t : SqlState) (mid : Int)
    (hf : ∀ m ∈ s.movies, m.id ≠ mid)
    (htm : ∀ m ∈ t.movies, m.id ≠ mid) :
    delete_movie s mid = (s, Except.error (ApiError.notFound "Movie not found"))
    ∧ sq_delete_movie t mid
        = (⟨t.movies, t.reviews.filter (fun r => r.movie_id != mid),
            t.next_movie_id, t.next_review_id⟩,
           "Movie and related reviews deleted") := by
  constructor
  · unfold delete_movie
    rw [if_neg]
    simp only [List.any_eq_true, beq_iff_eq, not_exists, not_and]
    intro m hm
    exact hf m hm
  · unfold sq_delete_movie
    have h1 : t.movies.filter (fun m => m.id != mid) = t.movies :=
      List.filter_eq_self.mpr (by intro a ha; simpa using htm a ha)
    rw [h1]

/-- Witness for C3 (amended): deleting the absent id 999 yields NotFound on
the flat-file sample state; on a SQLite state holding one movie and one
orphaned review referencing 999, the delete succeeds, keeps the movie store
and removes exactly the orphaned row. -/
theorem C3_witness :
    delete_movie sampleState 999
      = (sampleState, Except.error (ApiError.notFound "Movie not found"))
    ∧ sq_delete_movie orphanSqlState 999
        = (⟨orphanSqlState.movies,
            orphanSqlState.reviews.filter (fun r => r.movie_id != 999),
            orphanSqlState.next_movie_id, orphanSqlState.next_review_id⟩,
           "Movie and related reviews deleted") :=
  C3_delete_absent sampleState orphanSqlState 999 (by decide) (by decide)

lemma create_review_ok_eq (cl : String → Option Prediction) (now : Nat)
    (s : FState) (req : ReviewCreate) (mv : Movie) (pred : Prediction)
    (hm : s.movies.find? (fun m => m.id == req.movie_id) = some mv)
    (hc : cl req.content = some pred) :
    create_review cl now s req =
      (⟨s.movies,
        s.reviews ++ [⟨req.movie_id, mv.title, req.content,
          sentimentLabel pred.label, round4 pred.score, now⟩],
        s.movie_id_counter⟩,
       Except.ok ⟨req.movie_id, mv.title, req.content,
          sentimentLabel pred.label, round4 pred.score, now⟩) := by
  unfold create_review
  rw [hm, hc]

lemma sq_create_review_ok_eq (cl : String → Option Prediction) (now : Nat)
    (t : SqlState) (req : ReviewCreate) (mv : Movie) (pred : Prediction)
    (hm : t.movies.find? (fun m => m.id == req.movie_id) = some mv)
    (hc : cl req.content = some pred) :
    sq_create_review cl now t req =
      (⟨t.movies,
        t.reviews ++ [⟨t.next_review_id, req.movie_id, mv.title, req.content,
          sentimentLabel pred.label, round4 pred.score, now⟩],
        t.next_movie_id, t.next_review_id + 1⟩,
       Except.ok "success") := by
  unfold sq_create_review
  rw [hm, hc]

/-- Counterexample for C2: the claim's success branch "stores one complete
review and returns it" fails on the relational backend — two successful
submissions with different contents produce the identical constant success
payload (main_sqlite.py line 187), so the response is not the stored
record. -/
theorem C2_counterexample :
    (sq_create_review goodClassifier 200 sampleSqlState ⟨1, "Loved it"⟩).2
      = Except.ok "success"
    ∧ (sq_create_review goodClassifier 200 sampleSqlState ⟨1, "Hated it"⟩).2
      = (sq_create_review goodClassifier 200 sampleSqlState ⟨1, "Loved it"⟩).2 :=
  ⟨rfl, rfl⟩

/-- Claim C2 (amended): a review submission with an absent movie id fails
with NotFound, independently of the classifier (the classifier is never
consulted), and a submission whose classifier call fails propagates the
failure; in every failure case the state, and with it the review store, is
returned unchanged. When the movie exists and the classifier answers, one
complete review is stored: the flat-file backend returns it, the relational
backend stores the analogous row but returns only a success status. Both
backends. -/
theorem C2_submit_atomic (cl cl2 : String → Option Prediction) (now : Nat)
    (s1 s2 s3 : FState) (t1 t2 t3 : SqlState) (req1 req2 req3 : ReviewCreate)
    (mv mv2 mv3 mv4 : Movie) (pred : Prediction)
    (h1 : s1.movies.find? (fun m => m.id == req1.movie_id) = none)
    (h2 : s2.movies.find? (fun m => m.id == req2.movie_id) = some mv)
    (h3 : cl req2.content = none)
    (ht1 : t1.movies.find? (fun m => m.id == req1.movie_id) = none)
    (ht2 : t2.movies.find? (fun m => m.id == req2.movie_id) = some mv2)
    (h4 : s3.movies.find? (fun m => m.id == req3.movie_id) = some mv3)
    (h5 : cl2 req3.content = some pred)
    (ht3 : t3.movies.find? (fun m => m.id == req3.movie_id) = some mv4) :
    create_review cl now s1 req1
      = (s1, Except.error (ApiError.notFound "Movie not found"))
    ∧ create_review cl now s1 req1 = create_review cl2 now s1 req1
    ∧ create_review cl now s2 req2
      = (s2, Except.error ApiError.classificationError)
    ∧ sq_create_review cl now t1 req1
      = (t1, Except.error (ApiError.notFound "Movie not found"))
    ∧ sq_create_review cl now t1 req1 = sq_create_review cl2 now t1 req1
    ∧ sq_create_review cl now t2 req2
      = (t2, Except.error ApiError.classificationError)
    ∧ create_review cl2 now s3 req3
      = (⟨s3.movies,
          s3.reviews ++ [⟨req3.movie_id, mv3.title, req3.content,
            sentimentLabel pred.label, round4 pred.score, now⟩],
          s3.movie_id_counter⟩,
         Except.ok ⟨req3.movie_id, mv3.title, req3.content,
            sentimentLabel pred.label, round4 pred.score, now⟩)
    ∧ sq_create_review cl2 now t3 req3
      = (⟨t3.movies,
          t3.reviews ++ [⟨t3.next_review_id, req3.movie_id, mv4.title,
            req3.content, sentimentLabel pred.label, round4 pred.score, now⟩],
          t3.next_movie_id, t3.next_review_id + 1⟩,
         Except.ok "success") := by
  refine ⟨?_, ?_, ?_, ?_, ?_, ?_, ?_, ?_⟩
  · simp only [create_review, h1]
  · simp only [create_review, h1]
  · simp only [create_review, h2, h3]
  · simp only [sq_create_review, ht1]
  · simp only [sq_create_review, ht1]
  · simp only [sq_create_review, ht2, h3]
  · exact create_review_ok_eq cl2 now s3 req3 mv3 pred h4 h5
  · exact sq_create_review_ok_eq cl2 now t3 req3 mv4 pred ht3 h5

/-- Witness for C2 (amended): concrete failed submissions — absent movie id
999 on the empty stores (any classifier), a failing classifier on the sample
stores — and a concrete successful submission on both backends. -/
theorem C2_witness :
    create_review badClassifier 100 emptyState ⟨999, "x"⟩
      = (emptyState, Except.error (ApiError.notFound "Movie not found"))
    ∧ create_review badClassifier 100 emptyState ⟨999, "x"⟩
      = create_review goodClassifier 100 emptyState ⟨999, "x"⟩
    ∧ create_review badClassifier 100 sampleState ⟨1, "Amazing film"⟩
      = (sampleState, Except.error ApiError.classificationError)
    ∧ sq_create_review badClassifier 100 emptySqlState ⟨999, "x"⟩
      = (emptySqlState, Except.error (ApiError.notFound "Movie not found"))
    ∧ sq_create_review badClassifier 100 emptySqlState ⟨999, "x"⟩
      = sq_create_review goodClassifier 100 emptySqlState ⟨999, "x"⟩
    ∧ sq_create_review badClassifier 100 sampleSqlState ⟨1, "Amazing film"⟩
      = (sampleSqlState, Except.error ApiError.classificationError)
    ∧ create_review goodClassifier 100 sampleState ⟨1, "Amazing film"⟩
      = (⟨sampleState.movies,
          sampleState.reviews ++ [⟨1, "Inception", "Amazing film",
            sentimentLabel "LABEL_1", round4 (9/10), 100⟩],
          sampleState.movie_id_counter⟩,
         Except.ok ⟨1, "Inception", "Amazing film",
            sentimentLabel "LABEL_1", round4 (9/10), 100⟩)
    ∧ sq_create_review goodClassifier 100 sampleSqlState ⟨1, "Amazing film"⟩
      = (⟨sampleSqlState.movies,
          sampleSqlState.reviews ++ [⟨1, 1, "Inception", "Amazing film",
            sentimentLabel "LABEL_1", round4 (9/10), 100⟩],
          sampleSqlState.next_movie_id, sampleSqlState.next_review_id + 1⟩,
         Except.ok "success") :=
  C2_submit_atomic badClassifier goodClassifier 100 emptyState sampleState
    sampleState emptySqlState sampleSqlState sampleSqlState
    ⟨999, "x"⟩ ⟨1, "Amazing film"⟩ ⟨1, "Amazing film"⟩
    sampleMovie sampleMovie sampleMovie sampleMovie ⟨"LABEL_1", 9/10⟩
    (by rfl) (by rfl) (by rfl) (by rfl) (by rfl) (by rfl) (by rfl) (by rfl)

/-- Counterexample for C4: in the SQLite backend a successful submission does
not return the constructed record — the response is the constant
`{"status": "success"}` payload, identical for two submissions whose contents
differ, so it cannot carry the content verbatim (nor any other field of the
record). -/
theorem C4_counterexample :
    (sq_create_review goodClassifier 100 sampleSqlState ⟨1, "great"⟩).2
      = Except.ok "success"
    ∧ (sq_create_review goodClassifier 100 sampleSqlState ⟨1, "awful"⟩).2
      = (sq_create_review goodClassifier 100 sampleSqlState ⟨1, "great"⟩).2 :=
  ⟨rfl, rfl⟩

/-- Claim C4 (amended): a successful submission appends exactly one record
whose `movie_id` is the requested id, whose `movie_title` is the stored
movie's title at submission time, whose content is the given string verbatim,
and which carries the computed label, the rounded confidence and the
creation timestamp; the flat-file backend returns that record itself, while
the SQLite backend appends the analogous row (with its AUTOINCREMENT id) but
returns only a success status. -/
theorem C4_submit_success (cl : String → Option Prediction) (now : Nat)
    (s : FState) (t : SqlState) (req : ReviewCreate) (mv mv2 : Movie)
    (pred : Prediction)
    (hm : s.movies.find? (fun m => m.id == req.movie_id) = some mv)
    (hc : cl req.content = some pred)
    (htm : t.movies.find? (fun m => m.id == req.movie_id) = some mv2) :
    create_review cl now s req =
      (⟨s.movies,
        s.reviews ++ [⟨req.movie_id, mv.title, req.content,
          sentimentLabel pred.label, round4 pred.score, now⟩],
        s.movie_id_counter⟩,
       Except.ok ⟨req.movie_id, mv.title, req.content,
          sentimentLabel pred.label, round4 pred.score, now⟩)
    ∧ sq_create_review cl now t req =
      (⟨t.movies,
        t.reviews ++ [⟨t.next_review_id, req.movie_id, mv2.title, req.content,
          sentimentLabel pred.label, round4 pred.score, now⟩],
        t.next_movie_id, t.next_review_id + 1⟩,
       Except.ok "success") :=
  ⟨create_review_ok_eq cl now s req mv pred hm hc,
   sq_create_review_ok_eq cl now t req mv2 pred htm hc⟩

/-- Witness for C4 (amended): the section-8 scenario — submitting
"Amazing film" for movie 1 ("Inception") with a classifier answering
`LABEL_1` at confidence 9/10 appends and returns the fully populated record. -/
theorem C4_witness :
    create_review goodClassifier 100 sampleState ⟨1, "Amazing film"⟩ =
      (⟨sampleState.movies,
        sampleState.reviews ++ [⟨1, "Inception", "Amazing film",
          sentimentLabel "LABEL_1", round4 (9/10), 100⟩],
        sampleState.movie_id_counter⟩,
       Except.ok ⟨1, "Inception", "Amazing film",
          sentimentLabel "LABEL_1", round4 (9/10), 100⟩)
    ∧ sq_create_review goodClassifier 100 sampleSqlState ⟨1, "Amazing film"⟩ =
      (⟨sampleSqlState.movies,
        sampleSqlState.reviews ++ [⟨1, 1, "Inception", "Amazing film",
          sentimentLabel "LABEL_1", round4 (9/10), 100⟩],
        sampleSqlState.next_movie_id, sampleSqlState.next_review_id + 1⟩,
       Except.ok "success") :=
  C4_submit_success goodClassifier 100 sampleState sampleSqlState
    ⟨1, "Amazing film"⟩ sampleMovie sampleMovie ⟨"LABEL_1", 9/10⟩
    (by rfl) (by rfl) (by rfl)

lemma sentimentLabel_pos_iff (raw : String) :
    sentimentLabel raw = "POSITIVE" ↔ raw = "LABEL_1" := by
  unfold sentimentLabel
  by_cases h : raw = "LABEL_1"
  · simp [h]
  · simp only [if_neg h, h, iff_false]
    decide

lemma sentimentLabel_binary (raw : String) :
    sentimentLabel raw = "POSITIVE" ∨ sentimentLabel raw = "NEGATIVE" := by
  unfold sentimentLabel
  split
  · exact Or.inl rfl
  · exact Or.inr rfl

lemma create_review_ok_sentiment (cl : String → Option Prediction) (now : Nat)
    (s s2 : FState) (req : ReviewCreate) (r : Review)
    (hok : create_review cl now s req = (s2, Except.ok r)) :
    ∃ pred : Prediction, r.sentiment = sentimentLabel pred.label := by
  unfold create_review at hok
  rcases hfind : s.movies.find? (fun m => m.id == req.movie_id) with _ | mv
  · rw [hfind] at hok; simp at hok
  · rw [hfind] at hok
    rcases hcl : cl req.content with _ | pred
    · rw [hcl] at hok; simp at hok
    · rw [hcl] at hok
      simp only [Prod.mk.injEq, Except.ok.injEq] at hok
      exact ⟨pred, by rw [← hok.2]⟩

/-- Claim C7: the stored sentiment label is a function of the raw classifier
label alone — `LABEL_1` is the one raw value mapped to `"POSITIVE"`, every
other raw value is mapped to `"NEGATIVE"` — so the label of every stored
review lies in the two-valued set. -/
theorem C7_label_binary (raw : String) (cl : String → Option Prediction)
    (now : Nat) (s s2 : FState) (req : ReviewCreate) (r : Review)
    (hok : create_review cl now s req = (s2, Except.ok r)) :
    (sentimentLabel raw = "POSITIVE" ↔ raw = "LABEL_1")
    ∧ (sentimentLabel raw = "POSITIVE" ∨ sentimentLabel raw = "NEGATIVE")
    ∧ (r.sentiment = "POSITIVE" ∨ r.sentiment = "NEGATIVE") := by
  refine ⟨sentimentLabel_pos_iff raw, sentimentLabel_binary raw, ?_⟩
  obtain ⟨pred, hp⟩ := create_review_ok_sentiment cl now s s2 req r hok
  rw [hp]
  exact sentimentLabel_binary pred.label

/-- Witness for C7: a raw label other than `LABEL_1` (here `LABEL_0`) and the
concrete stored record of a successful sample submission. -/
theorem C7_witness :
    (sentimentLabel "LABEL_0" = "POSITIVE" ↔ "LABEL_0" = "LABEL_1")
    ∧ (sentimentLabel "LABEL_0" = "POSITIVE"
        ∨ sentimentLabel "LABEL_0" = "NEGATIVE")
    ∧ ((⟨1, "Inception", "Amazing film", sentimentLabel "LABEL_1",
          round4 (9/10), 100⟩ : Review).sentiment = "POSITIVE"
        ∨ (⟨1, "Inception", "Amazing film", sentimentLabel "LABEL_1",
          round4 (9/10), 100⟩ : Review).sentiment = "NEGATIVE") :=
  C7_label_binary "LABEL_0" goodClassifier 100 sampleState
    ⟨sampleState.movies,
     sampleState.reviews ++ [⟨1, "Inception", "Amazing film",
       sentimentLabel "LABEL_1", round4 (9/10), 100⟩],
     sampleState.movie_id_counter⟩
    ⟨1, "Amazing film"⟩
    ⟨1, "Inception", "Amazing film", sentimentLabel "LABEL_1", round4 (9/10), 100⟩
    (by rfl)

lemma roundHalfEven_bounds (x : ℚ) :
    ⌊x⌋ ≤ roundHalfEven x ∧ roundHalfEven x ≤ ⌈x⌉ := by
  unfold roundHalfEven
  split
  · exact ⟨le_refl _, Int.floor_le_ceil x⟩
  split
  · exact ⟨Int.floor_le_ceil x, le_refl _⟩
  split
  · exact ⟨le_refl _, Int.floor_le_ceil x⟩
  · exact ⟨Int.floor_le_ceil x, le_refl _⟩

lemma round4_nonneg (q : ℚ) (h : 0 ≤ q) : 0 ≤ round4 q := by
  unfold round4
  apply div_nonneg _ (by norm_num)
  have h1 : (0:ℤ) ≤ ⌊q * 10000⌋ :=
    Int.floor_nonneg.mpr (mul_nonneg h (by norm_num))
  have h2 := (roundHalfEven_bounds (q * 10000)).1
  exact_mod_cast le_trans h1 h2

lemma round4_le_one (q : ℚ) (h : q ≤ 1) : round4 q ≤ 1 := by
  unfold round4
  rw [div_le_one (by norm_num : (0:ℚ) < 10000)]
  have h0 : q * 10000 ≤ 1 * 10000 :=
    mul_le_mul_of_nonneg_right h (by norm_num)
  have h1 : ⌈q * 10000⌉ ≤ 10000 := by
    rw [Int.ceil_le]
    push_cast
    linarith
  have h2 := (roundHalfEven_bounds (q * 10000)).2
  exact_mod_cast le_trans h2 h1

/-- Claim C8: provided the classifier's score lies in [0,1], the
`sentiment_score` of the stored review equals that score rounded to 4 decimal
digits and itself lies in [0,1]. -/
theorem C8_score_rounded_in_unit (cl : String → Option Prediction) (now : Nat)
    (s s2 : FState) (req : ReviewCreate) (mv : Movie) (pred : Prediction)
    (r : Review)
    (hm : s.movies.find? (fun m => m.id == req.movie_id) = some mv)
    (hc : cl req.content = some pred)
    (hok : create_review cl now s req = (s2, Except.ok r))
    (hlo : 0 ≤ pred.score) (hhi : pred.score ≤ 1) :
    r.sentiment_score = round4 pred.score
    ∧ 0 ≤ r.sentiment_score ∧ r.sentiment_score ≤ 1 := by
  have heq := create_review_ok_eq cl now s req mv pred hm hc
  rw [hok] at heq
  simp only [Prod.mk.injEq, Except.ok.injEq] at heq
  have hr : r.sentiment_score = round4 pred.score := by rw [heq.2]
  exact ⟨hr, hr ▸ round4_nonneg pred.score hlo, hr ▸ round4_le_one pred.score hhi⟩

/-- Witness for C8: the sample submission with classifier score 9/10 stores
exactly `round4 (9/10)`, which lies in [0,1]. -/
theorem C8_witness :
    (⟨1, "Inception", "Amazing film", sentimentLabel "LABEL_1",
        round4 (9/10), 100⟩ : Review).sentiment_score = round4 (9/10)
    ∧ 0 ≤ (⟨1, "Inception", "Amazing film", sentimentLabel "LABEL_1",
        round4 (9/10), 100⟩ : Review).sentiment_score
    ∧ (⟨1, "Inception", "Amazing film", sentimentLabel "LABEL_1",
        round4 (9/10), 100⟩ : Review).sentiment_score ≤ 1 :=
  C8_score_rounded_in_unit goodClassifier 100 sampleState
    ⟨sampleState.movies,
     sampleState.reviews ++ [⟨1, "Inception", "Amazing film",
       sentimentLabel "LABEL_1", round4 (9/10), 100⟩],
     sampleState.movie_id_counter⟩
    ⟨1, "Amazing film"⟩ sampleMovie ⟨"LABEL_1", 9/10⟩
    ⟨1, "Inception", "Amazing film", sentimentLabel "LABEL_1", round4 (9/10), 100⟩
    (by rfl) (by rfl) (by rfl) (by norm_num) (by norm_num)

lemma step_counter_le (s : FState) (op : Op) :
    s.movie_id_counter ≤ (step s op).movie_id_counter := by
  cases op with
  | createMovie m =>
      simp only [step, create_movie]
      omega
  | deleteMovie i =>
      simp only [step, delete_movie]
      split <;> simp
  | submitReview cl now req =>
      simp only [step, create_review]
      split
      · simp
      split <;> simp
  | deleteAllReviews => simp [step, delete_all_reviews]
  | deleteReview i =>
      simp only [step, delete_specific_review]
      split <;> simp

lemma run_counter_le (ops : List Op) : ∀ s : FState,
    s.movie_id_counter ≤ (run s ops).movie_id_counter := by
  induction ops with
  | nil => intro s; exact le_refl _
  | cons op ops ih =>
      intro s
      exact le_trans (step_counter_le s op) (ih (step s op))

lemma createdIds_lower (ops : List Op) : ∀ (s : FState) (i : Int),
    i ∈ createdIds s ops → s.movie_id_counter ≤ i := by
  induction ops with
  | nil => intro s i h; simp [createdIds] at h
  | cons op ops ih =>
      intro s i h
      cases op with
      | createMovie m =>
          rw [show createdIds s (Op.createMovie m :: ops)
                = (create_movie s m).2.id
                    :: createdIds (step s (Op.createMovie m)) ops from rfl,
              List.mem_cons] at h
          rcases h with rfl | h
          · exact le_of_eq rfl
          · exact le_trans (step_counter_le s _) (ih _ i h)
      | deleteMovie j => exact le_trans (step_counter_le s _) (ih _ i h)
      | submitReview cl now req => exact le_trans (step_counter_le s _) (ih _ i h)
      | deleteAllReviews => exact le_trans (step_counter_le s _) (ih _ i h)
      | deleteReview j => exact le_trans (step_counter_le s _) (ih _ i h)

lemma createdIds_pairwise (ops : List Op) : ∀ s : FState,
    List.Pairwise (fun a b : Int => a < b) (createdIds s ops) := by
  induction ops with
  | nil => intro s; exact List.Pairwise.nil
  | cons op ops ih =>
      intro s
      cases op with
      | createMovie m =>
          show List.Pairwise _
            ((create_movie s m).2.id :: createdIds (step s (Op.createMovie m)) ops)
          refine List.Pairwise.cons ?_ (ih (step s (Op.createMovie m)))
          intro b hb
          have h1 := createdIds_lower ops (step s (Op.createMovie m)) b hb
          have h2 : (step s (Op.createMovie m)).movie_id_counter
              = s.movie_id_counter + 1 := rfl
          show (create_movie s m).2.id < b
          have h3 : (create_movie s m).2.id = s.movie_id_counter := rfl
          omega
      | deleteMovie j => exact ih _
      | submitReview cl now req => exact ih _
      | deleteAllReviews => exact ih _
      | deleteReview j => exact ih _

/-- Claim C5: over any session (any interleaving of creations, deletions and
review submissions from any starting state), the ids returned by successive
`create_movie` calls are strictly increasing, hence pairwise distinct — so a
deletion never causes an id to be reassigned within the session — and the
next-id counter never decreases. -/
theorem C5_ids_strictly_increasing (s : FState) (ops : List Op) :
    List.Pairwise (fun a b : Int => a < b) (createdIds s ops)
    ∧ (createdIds s ops).Nodup
    ∧ s.movie_id_counter ≤ (run s ops).movie_id_counter :=
  ⟨createdIds_pairwise ops s,
   (createdIds_pairwise ops s).imp (fun hab => ne_of_lt hab),
   run_counter_le ops s⟩

/-- Counterexample for C6: `get_recent_reviews` merely reverses the stored
list and truncates, so on a store whose two reviews carry decreasing
timestamps (stamped 200 inserted first, stamped 100 inserted second) the
returned list is not ordered by creation time descending — the claim's
"for every review store ... ordered by creation time descending" fails. -/
theorem C6_counterexample :
    get_recent_reviews ⟨[], [lateReview, earlyReview], 1⟩ 2
      = [earlyReview, lateReview]
    ∧ ¬ List.Pairwise (fun a b : Review => b.created_at ≤ a.created_at)
        [earlyReview, lateReview] := by
  refine ⟨rfl, ?_⟩
  intro h
  rcases h with _ | ⟨hr, -⟩
  exact absurd (hr lateReview (by simp)) (by decide)

/-- Claim C6 (amended): for a nonnegative limit `n`, `get_recent_reviews`
returns the first `n` elements of the newest-first (reversed) review list —
hence at most `n` reviews, the empty list for `n = 0`, and the whole reversed
store for any limit at least the store size; the declared default limit is
10; and whenever the stored timestamps are nondecreasing in insertion order
(as when entries are appended under a monotone wall clock), the result is
ordered by creation time descending with same-second ties broken
last-inserted-first. -/
theorem C6_listRecent (s : FState) (n nbig : Int) (h0 : 0 ≤ n)
    (hbig : (s.reviews.length : Int) ≤ nbig) :
    get_recent_reviews s n = s.reviews.reverse.take n.toNat
    ∧ ((get_recent_reviews s n).length : Int) ≤ n
    ∧ get_recent_reviews s 0 = []
    ∧ get_recent_reviews s nbig = s.reviews.reverse
    ∧ get_recent_reviews_default s = get_recent_reviews s 10
    ∧ (List.Pairwise (fun a b : Review => a.created_at ≤ b.created_at) s.reviews →
        List.Pairwise (fun a b : Review => b.created_at ≤ a.created_at)
          (get_recent_reviews s n)) := by
  have htake : get_recent_reviews s n = s.reviews.reverse.take n.toNat := by
    unfold get_recent_reviews pySliceTo
    rw [if_pos h0]
  refine ⟨htake, ?_, ?_, ?_, rfl, ?_⟩
  · rw [htake, List.length_take]
    omega
  · simp [get_recent_reviews, pySliceTo]
  · unfold get_recent_reviews pySliceTo
    rw [if_pos (le_trans (Int.natCast_nonneg _) hbig)]
    apply List.take_of_length_le
    rw [List.length_reverse]
    omega
  · intro hmono
    rw [htake]
    have hrev : List.Pairwise
        (fun a b : Review => b.created_at ≤ a.created_at) s.reviews.reverse := by
      rw [List.pairwise_reverse]
      exact hmono
    exact hrev.sublist (List.take_sublist _ _)

/-- Witness for C6 (amended): the sample store (one review), limits 2, 0, 5
and the default, with the ordering premise discharged on the concrete store. -/
theorem C6_witness :
    get_recent_reviews sampleState 2 = sampleState.reviews.reverse.take (2 : Int).toNat
    ∧ ((get_recent_reviews sampleState 2).length : Int) ≤ 2
    ∧ get_recent_reviews sampleState 0 = []
    ∧ get_recent_reviews sampleState 5 = sampleState.reviews.reverse
    ∧ get_recent_reviews_default sampleState = get_recent_reviews sampleState 10
    ∧ List.Pairwise (fun a b : Review => b.created_at ≤ a.created_at)
        (get_recent_reviews sampleState 2) := by
  have h := C6_listRecent sampleState 2 5 (by decide) (by decide)
  exact ⟨h.1, h.2.1, h.2.2.1, h.2.2.2.1, h.2.2.2.2.1,
    h.2.2.2.2.2 (List.pairwise_singleton _ _)⟩

lemma pyPop_none_iff {α : Type} (l : List α) (i : Int) :
    pyPop l i = none ↔ ((l.length : Int) ≤ i ∨ i < -(l.length : Int)) := by
  simp only [pyPop]
  split_ifs with h1 h2 <;> simp <;> omega

lemma pyPop_neg_eq {α : Type} (l : List α) (i : Int)
    (h1 : -(l.length : Int) ≤ i) (h2 : i ≤ -1) :
    pyPop l i = some (l.eraseIdx ((l.length : Int) + i).toNat) := by
  have hi : i < 0 := by omega
  simp only [pyPop, if_pos hi]
  rw [if_pos ⟨by omega, by omega⟩]
  have ht : (i + (l.length : Int)).toNat = ((l.length : Int) + i).toNat := by omega
  rw [ht]

/-- Claim C9: positional review deletion fails with the out-of-range error
exactly when the index is at least the store size or below its negation, and
every in-range negative index `i` succeeds, removing the review at
insertion-order position `size + i` (so index -1 removes the most recently
inserted review rather than failing). -/
theorem C9_positional_delete (s : FState) (i ineg : Int)
    (hneg1 : -(s.reviews.length : Int) ≤ ineg) (hneg2 : ineg ≤ -1) :
    ((delete_specific_review s i).2
        = Except.error (ApiError.notFound "Review index out of range")
      ↔ ((s.reviews.length : Int) ≤ i ∨ i < -(s.reviews.length : Int)))
    ∧ delete_specific_review s ineg
        = (⟨s.movies, s.reviews.eraseIdx ((s.reviews.length : Int) + ineg).toNat,
            s.movie_id_counter⟩,
           Except.ok "Review deleted") := by
  constructor
  · have hiff := pyPop_none_iff s.reviews i
    unfold delete_specific_review
    rcases hp : pyPop s.reviews i with _ | l
    · rw [hp] at hiff
      simp only [true_iff] at hiff
      · simpa using hiff
    · rw [hp] at hiff
      simp only [reduceCtorEq, false_iff] at hiff
      simpa using hiff
  · unfold delete_specific_review
    rw [pyPop_neg_eq s.reviews ineg hneg1 hneg2]

/-- Witness for C9: on the sample store of size 1, index 5 is rejected as out
of range while index -1 removes the single (most recent) review. -/
theorem C9_witness :
    ((delete_specific_review sampleState 5).2
        = Except.error (ApiError.notFound "Review index out of range")
      ↔ ((sampleState.reviews.length : Int) ≤ 5
          ∨ 5 < -(sampleState.reviews.length : Int)))
    ∧ delete_specific_review sampleState (-1)
        = (⟨sampleState.movies,
            sampleState.reviews.eraseIdx
              ((sampleState.reviews.length : Int) + (-1)).toNat,
            sampleState.movie_id_counter⟩,
           Except.ok "Review deleted") :=
  C9_positional_delete sampleState 5 (-1) (by decide) (by decide)

/-- Counterexample for C10: on an empty review store with limit -1 (a negative
limit), `get_recent_reviews` returns the entire newest-first review list —
i.e. it does return all reviews for a negative limit, contradicting the
claim's "never returns all reviews" conjunct (which itself clashes with the
claim's own "empty when l ≤ -s" conjunct at size 0). -/
theorem C10_counterexample :
    get_recent_reviews emptyState (-1) = emptyState.reviews.reverse := rfl

/-- Claim C10 (amended): for a negative limit `l`, `get_recent_reviews`
returns the newest `size + l` reviews (the reversed store truncated by `-l`,
i.e. omitting the `-l` oldest), returns the empty list whenever
`l ≤ -size`, and for a nonempty store never returns all reviews. -/
theorem C10_negative_limit (s t : FState) (l l2 : Int)
    (hneg : l < 0) (hl2neg : l2 < 0)
    (hl2 : l2 ≤ -(s.reviews.length : Int))
    (hne : t.reviews ≠ []) :
    get_recent_reviews s l
      = s.reviews.reverse.take (s.reviews.length - (-l).toNat)
    ∧ get_recent_reviews s l2 = []
    ∧ get_recent_reviews t l ≠ t.reviews.reverse := by
  refine ⟨?_, ?_, ?_⟩
  · unfold get_recent_reviews pySliceTo
    rw [if_neg (by omega), List.length_reverse]
  · unfold get_recent_reviews pySliceTo
    rw [if_neg (by omega)]
    have h0 : s.reviews.reverse.length - (-l2).toNat = 0 := by
      rw [List.length_reverse]
      omega
    rw [h0, List.take_zero]
  · intro heq
    have hlen := congrArg List.length heq
    unfold get_recent_reviews pySliceTo at hlen
    rw [if_neg (by omega), List.length_take, List.length_reverse] at hlen
    have hpos : 0 < t.reviews.length := List.length_pos.mpr hne
    omega

/-- Witness for C10 (amended): on the sample store of size 1, limit -1 keeps
the newest 0 reviews, limit -3 yields the empty list, and limit -1 does not
return the full store. -/
theorem C10_witness :
    get_recent_reviews sampleState (-1)
      = sampleState.reviews.reverse.take
          (sampleState.reviews.length - (-(-1) : Int).toNat)
    ∧ get_recent_reviews sampleState (-3) = []
    ∧ get_recent_reviews sampleState (-1) ≠ sampleState.reviews.reverse :=
  C10_negative_limit sampleState sampleState (-1) (-3)
    (by decide) (by decide) (by decide) (by decide)

end MovieReview
